import Mathlib

/-!
Shallow embedding of `src/exo/networking/peer_health_tracker.py`
(class `PeerHealthTracker`), the per-peer circuit breaker of the repo.

The Python dictionaries `failure_counts : Dict[str, int]` and
`unhealthy_until : Dict[str, float]` are modelled as partial maps
`String → Option Nat` and `String → Option ℤ` (absent key = `none`).
Wall-clock time (`time.time()`) is passed explicitly as an integer
`now` argument to the operations that read the clock; every property
proved below is parametric in the clock readings and uses only the
ordered-group structure of the time type.
-/

/-- Partial-map update: `m[k] = v` on a Python dict. -/
def setKey {α : Type} (m : String → Option α) (k : String) (v : α) :
    String → Option α :=
  fun q => if q = k then some v else m q

/-- Partial-map deletion: `del m[k]` on a Python dict. -/
def delKey {α : Type} (m : String → Option α) (k : String) :
    String → Option α :=
  fun q => if q = k then none else m q

/-- State of one `PeerHealthTracker` instance. -/
structure PeerHealthTracker where
  failure_counts : String → Option Nat
  unhealthy_until : String → Option ℤ
  failure_threshold : Nat
  cooldown_period : ℤ

/-- `PeerHealthTracker.__init__`: both dicts start empty, the two
configuration values are stored. -/
def init (failure_threshold : Nat) (cooldown_period : ℤ) :
    PeerHealthTracker :=
  { failure_counts := fun _ => none
    unhealthy_until := fun _ => none
    failure_threshold := failure_threshold
    cooldown_period := cooldown_period }

/-- `PeerHealthTracker.record_failure`: ensure the counter entry exists,
increment it, and when it reaches `failure_threshold` set
`unhealthy_until[peer_id] = now + cooldown_period` and reset the
counter to 0. -/
def record_failure (t : PeerHealthTracker) (peer_id : String) (now : ℤ) :
    PeerHealthTracker :=
  let counts0 := if (t.failure_counts peer_id).isNone then
      setKey t.failure_counts peer_id 0
    else t.failure_counts
  let newCount := (counts0 peer_id).getD 0 + 1
  let counts1 := setKey counts0 peer_id newCount
  if t.failure_threshold ≤ newCount then
    { failure_counts := setKey counts1 peer_id 0
      unhealthy_until :=
        setKey t.unhealthy_until peer_id (now + t.cooldown_period)
      failure_threshold := t.failure_threshold
      cooldown_period := t.cooldown_period }
  else
    { t with failure_counts := counts1 }

/-- `PeerHealthTracker.record_success`: if a counter entry exists for
`peer_id`, reset it to 0; otherwise do nothing. -/
def record_success (t : PeerHealthTracker) (peer_id : String) :
    PeerHealthTracker :=
  if (t.failure_counts peer_id).isNone then t
  else { t with failure_counts := setKey t.failure_counts peer_id 0 }

/-- `PeerHealthTracker.is_healthy`: returns the verdict together with
the (possibly mutated) state.  When an `unhealthy_until` entry exists
and `now` is strictly past it, the entry is deleted and the peer is
healthy; when the deadline has not passed the peer is unhealthy; with
no entry the peer is healthy. -/
def is_healthy (t : PeerHealthTracker) (peer_id : String) (now : ℤ) :
    Bool × PeerHealthTracker :=
  match t.unhealthy_until peer_id with
  | some deadline =>
    if deadline < now then
      (true, { t with unhealthy_until := delKey t.unhealthy_until peer_id })
    else
      (false, t)
  | none => (true, t)

/-- `PeerHealthTracker.get_cooldown_remaining`: `unhealthy_until[peer_id] - now`
when that entry exists and the difference is strictly positive, else
`none`.  The Python method reads the dicts and assigns nothing, so the
embedding has no state output. -/
def get_cooldown_remaining (t : PeerHealthTracker) (peer_id : String)
    (now : ℤ) : Option ℤ :=
  match t.unhealthy_until peer_id with
  | some deadline =>
    let remaining := deadline - now
    if 0 < remaining then some remaining else none
  | none => none

/-- A sequence of `record_failure` calls for one peer, one per listed
clock reading. -/
def record_failures (t : PeerHealthTracker) (peer_id : String)
    (ts : List ℤ) : PeerHealthTracker :=
  ts.foldl (fun s now => record_failure s peer_id now) t

/-- One call of the public API, with its arguments. -/
inductive Op where
  | fail (peer_id : String) (now : ℤ)
  | ok (peer_id : String)
  | health (peer_id : String) (now : ℤ)
  | cooldown (peer_id : String) (now : ℤ)

/-- The peer an operation addresses. -/
def Op.peer : Op → String
  | .fail p _ => p
  | .ok p => p
  | .health p _ => p
  | .cooldown p _ => p

/-- State transition of one API call (return values discarded;
`get_cooldown_remaining` performs no assignment in the source). -/
def step (t : PeerHealthTracker) : Op → PeerHealthTracker
  | .fail p now => record_failure t p now
  | .ok p => record_success t p
  | .health p now => (is_healthy t p now).2
  | .cooldown _ _ => t

/-- Running a whole call sequence from a state. -/
def stepList (t : PeerHealthTracker) (ops : List Op) : PeerHealthTracker :=
  ops.foldl step t

theorem setKey_same {α : Type} (m : String → Option α) (k : String)
    (v : α) : setKey m k v k = some v := by
  simp [setKey]

theorem setKey_other {α : Type} (m : String → Option α) (k q : String)
    (v : α) (h : q ≠ k) : setKey m k v q = m q := by
  simp [setKey, h]

theorem delKey_same {α : Type} (m : String → Option α) (k : String) :
    delKey m k k = none := by
  simp [delKey]

theorem delKey_other {α : Type} (m : String → Option α) (k q : String)
    (h : q ≠ k) : delKey m k q = m q := by
  simp [delKey, h]

theorem record_failure_counts_self (t : PeerHealthTracker) (p : String)
    (now : ℤ) :
    (record_failure t p now).failure_counts p =
      if t.failure_threshold ≤ (t.failure_counts p).getD 0 + 1 then some 0
      else some ((t.failure_counts p).getD 0 + 1) := by
  unfold record_failure
  cases h : t.failure_counts p <;> simp [h, setKey] <;> split <;> simp [setKey, delKey]

theorem record_failure_counts_other (t : PeerHealthTracker) (p q : String)
    (now : ℤ) (hq : q ≠ p) :
    (record_failure t p now).failure_counts q = t.failure_counts q := by
  unfold record_failure
  cases h : t.failure_counts p <;> simp [h, setKey, hq] <;> split <;>
    simp [setKey, hq]

theorem record_failure_uu_self (t : PeerHealthTracker) (p : String)
    (now : ℤ) :
    (record_failure t p now).unhealthy_until p =
      if t.failure_threshold ≤ (t.failure_counts p).getD 0 + 1 then
        some (now + t.cooldown_period)
      else t.unhealthy_until p := by
  unfold record_failure
  cases h : t.failure_counts p <;> simp [h, setKey] <;> split <;> simp [setKey, delKey]

theorem record_failure_uu_other (t : PeerHealthTracker) (p q : String)
    (now : ℤ) (hq : q ≠ p) :
    (record_failure t p now).unhealthy_until q = t.unhealthy_until q := by
  unfold record_failure
  cases h : t.failure_counts p <;> simp [h, setKey, hq] <;> split <;>
    simp [setKey, hq]

theorem record_failure_threshold (t : PeerHealthTracker) (p : String)
    (now : ℤ) :
    (record_failure t p now).failure_threshold = t.failure_threshold := by
  unfold record_failure
  cases h : t.failure_counts p <;> simp [h] <;> split <;> simp [setKey, delKey]

theorem record_failure_cooldown (t : PeerHealthTracker) (p : String)
    (now : ℤ) :
    (record_failure t p now).cooldown_period = t.cooldown_period := by
  unfold record_failure
  cases h : t.failure_counts p <;> simp [h] <;> split <;> simp [setKey, delKey]

theorem record_success_counts_self (t : PeerHealthTracker) (p : String) :
    (record_success t p).failure_counts p =
      if (t.failure_counts p).isNone then none else some 0 := by
  unfold record_success
  cases h : t.failure_counts p <;> simp [h, setKey]

theorem record_success_counts_other (t : PeerHealthTracker) (p q : String)
    (hq : q ≠ p) :
    (record_success t p).failure_counts q = t.failure_counts q := by
  unfold record_success
  cases h : t.failure_counts p <;> simp [h, setKey, hq]

theorem record_success_uu (t : PeerHealthTracker) (p : String) :
    (record_success t p).unhealthy_until = t.unhealthy_until := by
  unfold record_success
  cases h : t.failure_counts p <;> simp [h]

theorem record_success_threshold (t : PeerHealthTracker) (p : String) :
    (record_success t p).failure_threshold = t.failure_threshold := by
  unfold record_success
  cases h : t.failure_counts p <;> simp [h]

theorem record_success_cooldown (t : PeerHealthTracker) (p : String) :
    (record_success t p).cooldown_period = t.cooldown_period := by
  unfold record_success
  cases h : t.failure_counts p <;> simp [h]

theorem is_healthy_counts (t : PeerHealthTracker) (p : String) (now : ℤ) :
    (is_healthy t p now).2.failure_counts = t.failure_counts := by
  unfold is_healthy
  cases h : t.unhealthy_until p <;> simp [h] <;> split <;> simp [setKey, delKey]

theorem is_healthy_threshold (t : PeerHealthTracker) (p : String)
    (now : ℤ) :
    (is_healthy t p now).2.failure_threshold = t.failure_threshold := by
  unfold is_healthy
  cases h : t.unhealthy_until p <;> simp [h] <;> split <;> simp [setKey, delKey]

theorem is_healthy_cooldown (t : PeerHealthTracker) (p : String)
    (now : ℤ) :
    (is_healthy t p now).2.cooldown_period = t.cooldown_period := by
  unfold is_healthy
  cases h : t.unhealthy_until p <;> simp [h] <;> split <;> simp [setKey, delKey]

theorem is_healthy_uu_other (t : PeerHealthTracker) (p q : String)
    (now : ℤ) (hq : q ≠ p) :
    (is_healthy t p now).2.unhealthy_until q = t.unhealthy_until q := by
  unfold is_healthy
  cases h : t.unhealthy_until p <;> simp [h] <;> split <;>
    simp [delKey, hq]

theorem is_healthy_fst_eq_of_uu_eq (t s : PeerHealthTracker) (p : String)
    (now : ℤ) (h : t.unhealthy_until p = s.unhealthy_until p) :
    (is_healthy t p now).1 = (is_healthy s p now).1 := by
  unfold is_healthy
  rw [h]
  cases hs : s.unhealthy_until p with
  | none => rfl
  | some d => by_cases hd : d < now <;> simp [hd]

theorem get_cooldown_remaining_eq_of_uu_eq (t s : PeerHealthTracker)
    (p : String) (now : ℤ)
    (h : t.unhealthy_until p = s.unhealthy_until p) :
    get_cooldown_remaining t p now = get_cooldown_remaining s p now := by
  unfold get_cooldown_remaining
  rw [h]

theorem record_failure_uu_no_trip (t : PeerHealthTracker) (p : String)
    (now : ℤ)
    (h : ¬ t.failure_threshold ≤ (t.failure_counts p).getD 0 + 1) :
    (record_failure t p now).unhealthy_until = t.unhealthy_until := by
  funext q
  by_cases hq : q = p
  · subst hq
    rw [record_failure_uu_self, if_neg h]
  · exact record_failure_uu_other t p q now hq

theorem record_success_counts_getD (t : PeerHealthTracker) (p : String) :
    ((record_success t p).failure_counts p).getD 0 = 0 := by
  rw [record_success_counts_self]
  split <;> simp

theorem is_healthy_uu_self_expired (t : PeerHealthTracker) (p : String)
    (now d : ℤ) (h : t.unhealthy_until p = some d) (hd : d < now) :
    (is_healthy t p now).2.unhealthy_until p = none := by
  unfold is_healthy
  rw [h]
  simp [hd, delKey]

theorem is_healthy_fst_none (t : PeerHealthTracker) (p : String) (now : ℤ)
    (h : t.unhealthy_until p = none) : (is_healthy t p now).1 = true := by
  unfold is_healthy
  rw [h]

theorem is_healthy_fst_open (t : PeerHealthTracker) (p : String)
    (now d : ℤ) (h : t.unhealthy_until p = some d) (hd : ¬ d < now) :
    (is_healthy t p now).1 = false := by
  unfold is_healthy
  rw [h]
  simp [hd]

theorem record_failures_no_trip (p : String) :
    ∀ (ts : List ℤ) (t : PeerHealthTracker),
      (t.failure_counts p).getD 0 + ts.length < t.failure_threshold →
      ((record_failures t p ts).failure_counts p).getD 0 =
          (t.failure_counts p).getD 0 + ts.length ∧
        (record_failures t p ts).unhealthy_until = t.unhealthy_until ∧
        (record_failures t p ts).failure_threshold = t.failure_threshold ∧
        (record_failures t p ts).cooldown_period = t.cooldown_period := by
  intro ts
  induction ts with
  | nil =>
    intro t h
    exact ⟨by simp [record_failures], rfl, rfl, rfl⟩
  | cons τ rest ih =>
    intro t h
    have hnot : ¬ t.failure_threshold ≤ (t.failure_counts p).getD 0 + 1 := by
      simp only [List.length_cons] at h
      omega
    have hfc1 : ((record_failure t p τ).failure_counts p).getD 0 =
        (t.failure_counts p).getD 0 + 1 := by
      rw [record_failure_counts_self, if_neg hnot]
      rfl
    have hft1 : (record_failure t p τ).failure_threshold =
        t.failure_threshold := record_failure_threshold t p τ
    have hstep : record_failures t p (τ :: rest) =
        record_failures (record_failure t p τ) p rest := rfl
    have hrec := ih (record_failure t p τ) (by
      rw [hfc1, hft1]
      simp only [List.length_cons] at h
      omega)
    refine ⟨?_, ?_, ?_, ?_⟩
    · rw [hstep, hrec.1, hfc1]
      simp only [List.length_cons]
      omega
    · rw [hstep, hrec.2.1, record_failure_uu_no_trip t p τ hnot]
    · rw [hstep, hrec.2.2.1, hft1]
    · rw [hstep, hrec.2.2.2, record_failure_cooldown]

theorem step_threshold (t : PeerHealthTracker) (o : Op) :
    (step t o).failure_threshold = t.failure_threshold := by
  cases o with
  | fail p now => exact record_failure_threshold t p now
  | ok p => exact record_success_threshold t p
  | health p now => exact is_healthy_threshold t p now
  | cooldown p now => rfl

theorem step_frame (t : PeerHealthTracker) (o : Op) (q : String)
    (hq : q ≠ o.peer) :
    (step t o).failure_counts q = t.failure_counts q ∧
    (step t o).unhealthy_until q = t.unhealthy_until q := by
  cases o with
  | fail p now =>
    exact ⟨record_failure_counts_other t p q now hq,
      record_failure_uu_other t p q now hq⟩
  | ok p =>
    have h2 : (record_success t p).unhealthy_until q = t.unhealthy_until q :=
      by rw [record_success_uu]
    exact ⟨record_success_counts_other t p q hq, h2⟩
  | health p now =>
    have h1 : (is_healthy t p now).2.failure_counts q = t.failure_counts q :=
      by rw [is_healthy_counts]
    exact ⟨h1, is_healthy_uu_other t p q now hq⟩
  | cooldown p now => exact ⟨rfl, rfl⟩

theorem stepList_frame (q : String) :
    ∀ (ops : List Op) (t : PeerHealthTracker),
      (∀ o ∈ ops, q ≠ o.peer) →
      (stepList t ops).failure_counts q = t.failure_counts q ∧
      (stepList t ops).unhealthy_until q = t.unhealthy_until q := by
  intro ops
  induction ops with
  | nil => exact fun t _ => ⟨rfl, rfl⟩
  | cons o rest ih =>
    intro t h
    have h0 := step_frame t o q (h o (by simp))
    have h1 := ih (step t o) (fun o' ho' => h o' (by simp [ho']))
    exact ⟨h1.1.trans h0.1, h1.2.trans h0.2⟩

theorem step_counts_bound (t : PeerHealthTracker) (o : Op)
    (hft : 1 ≤ t.failure_threshold)
    (h : ∀ (q : String) (c : Nat),
      t.failure_counts q = some c → c < t.failure_threshold) :
    ∀ (q : String) (c : Nat),
      (step t o).failure_counts q = some c → c < t.failure_threshold := by
  intro q c hc
  cases o with
  | fail p now =>
    by_cases hq : q = p
    · subst hq
      have hc2 : (record_failure t q now).failure_counts q = some c := hc
      rw [record_failure_counts_self] at hc2
      by_cases htrip :
          t.failure_threshold ≤ (t.failure_counts q).getD 0 + 1
      · rw [if_pos htrip] at hc2
        simp only [Option.some.injEq] at hc2
        omega
      · rw [if_neg htrip] at hc2
        simp only [Option.some.injEq] at hc2
        omega
    · have hc2 : (record_failure t p now).failure_counts q = some c := hc
      rw [record_failure_counts_other t p q now hq] at hc2
      exact h q c hc2
  | ok p =>
    by_cases hq : q = p
    · subst hq
      have hc2 : (record_success t q).failure_counts q = some c := hc
      rw [record_success_counts_self] at hc2
      by_cases hn : (t.failure_counts q).isNone
      · rw [if_pos hn] at hc2
        exact absurd hc2 (by simp)
      · rw [if_neg hn] at hc2
        simp only [Option.some.injEq] at hc2
        omega
    · have hc2 : (record_success t p).failure_counts q = some c := hc
      rw [record_success_counts_other t p q hq] at hc2
      exact h q c hc2
  | health p now =>
    have hc2 : (is_healthy t p now).2.failure_counts q = some c := hc
    rw [is_healthy_counts] at hc2
    exact h q c hc2
  | cooldown p now => exact h q c hc

theorem stepList_counts_bound :
    ∀ (ops : List Op) (t : PeerHealthTracker),
      1 ≤ t.failure_threshold →
      (∀ (q : String) (c : Nat),
        t.failure_counts q = some c → c < t.failure_threshold) →
      ∀ (q : String) (c : Nat),
        (stepList t ops).failure_counts q = some c →
        c < t.failure_threshold := by
  intro ops
  induction ops with
  | nil => exact fun t _ h => h
  | cons o rest ih =>
    intro t hft h q c hc
    have hft1 : 1 ≤ (step t o).failure_threshold := by
      rw [step_threshold]; exact hft
    have hbound := step_counts_bound t o hft h
    have := ih (step t o) hft1
      (fun q' c' hc' => by rw [step_threshold]; exact hbound q' c' hc')
      q c hc
    rwa [step_threshold] at this

/-- C1: for a positive threshold `N` and a peer `p` never seen before,
after `k` consecutive `record_failure p` calls with no intervening
success, `is_healthy p` is true while `k < N`; immediately after the
`N`-th call (with a positive cooldown and the clock not strictly past
the deadline set by that call) `is_healthy p` is false. -/
theorem spec_C1 (t : PeerHealthTracker) (p : String) (N : Nat)
    (hN : 0 < N) (hft : t.failure_threshold = N)
    (hfc : t.failure_counts p = none) (huu : t.unhealthy_until p = none) :
    (∀ (ts : List ℤ) (now : ℤ), ts.length < N →
      (is_healthy (record_failures t p ts) p now).1 = true) ∧
    (∀ (ts : List ℤ) (τ now : ℤ), ts.length + 1 = N →
      0 < t.cooldown_period → now ≤ τ + t.cooldown_period →
      (is_healthy (record_failures t p (ts ++ [τ])) p now).1 = false) := by
  constructor
  · intro ts now hlen
    have h := record_failures_no_trip p ts t (by rw [hfc, hft]; simpa)
    have huu2 : (record_failures t p ts).unhealthy_until p = none := by
      rw [h.2.1, huu]
    unfold is_healthy
    rw [huu2]
  · intro ts τ now hlen hcp hnow
    have h := record_failures_no_trip p ts t (by rw [hfc, hft]; simp; omega)
    have htrip : (record_failures t p ts).failure_threshold ≤
        ((record_failures t p ts).failure_counts p).getD 0 + 1 := by
      rw [h.2.2.1, h.1, hfc, hft]
      simp
      omega
    have happ : record_failures t p (ts ++ [τ]) =
        record_failure (record_failures t p ts) p τ := by
      simp [record_failures, List.foldl_append]
    have huu2 : (record_failure (record_failures t p ts) p τ).unhealthy_until
        p = some (τ + (record_failures t p ts).cooldown_period) := by
      rw [record_failure_uu_self, if_pos htrip]
    have hlate : ¬ (τ + (record_failures t p ts).cooldown_period < now) := by
      rw [h.2.2.2]
      omega
    rw [happ]
    unfold is_healthy
    rw [huu2]
    simp [hlate]

/-- C2: `is_healthy p` removes the `unhealthy_until` entry and returns
true when the clock is strictly past the deadline; returns false and
leaves the state unchanged when the deadline has not passed; returns
true and leaves the state unchanged when `p` has no entry; and no
other operation ever removes an `unhealthy_until` entry. -/
theorem spec_C2 (t : PeerHealthTracker) (p : String) (now : ℤ) :
    (∀ d, t.unhealthy_until p = some d → d < now →
      (is_healthy t p now).1 = true ∧
      (is_healthy t p now).2.unhealthy_until p = none) ∧
    (∀ d, t.unhealthy_until p = some d → ¬ d < now →
      (is_healthy t p now).1 = false ∧ (is_healthy t p now).2 = t) ∧
    (t.unhealthy_until p = none →
      (is_healthy t p now).1 = true ∧ (is_healthy t p now).2 = t) ∧
    (∀ (q r : String) (τ : ℤ), t.unhealthy_until r ≠ none →
      (record_failure t q τ).unhealthy_until r ≠ none ∧
      (record_success t q).unhealthy_until r ≠ none ∧
      step t (Op.cooldown q τ) = t) := by
  refine ⟨?_, ?_, ?_, ?_⟩
  · intro d hd hlt
    constructor
    · unfold is_healthy
      rw [hd]
      simp [hlt]
    · exact is_healthy_uu_self_expired t p now d hd hlt
  · intro d hd hge
    unfold is_healthy
    rw [hd]
    simp [hge]
  · intro hd
    unfold is_healthy
    rw [hd]
    simp
  · intro q r τ hr
    refine ⟨?_, ?_, rfl⟩
    · by_cases hrq : r = q
      · subst hrq
        rw [record_failure_uu_self]
        split
        · simp
        · exact hr
      · rw [record_failure_uu_other t q r τ hrq]
        exact hr
    · rw [record_success_uu]
      exact hr

/-- C3: `record_success p` never touches the `unhealthy_until` mapping
(so a circuit-open peer stays open), never touches another peer's
counter, and only resets `p`'s counter to 0 when a record exists
(leaving an absent record absent); configuration is untouched. -/
theorem spec_C3 (t : PeerHealthTracker) (p : String) :
    (record_success t p).unhealthy_until = t.unhealthy_until ∧
    (∀ q, q ≠ p →
      (record_success t p).failure_counts q = t.failure_counts q) ∧
    (∀ c, t.failure_counts p = some c →
      (record_success t p).failure_counts p = some 0) ∧
    (t.failure_counts p = none →
      (record_success t p).failure_counts p = none) ∧
    (record_success t p).failure_threshold = t.failure_threshold ∧
    (record_success t p).cooldown_period = t.cooldown_period := by
  refine ⟨record_success_uu t p,
    fun q hq => record_success_counts_other t p q hq, ?_, ?_,
    record_success_threshold t p, record_success_cooldown t p⟩
  · intro c hc
    rw [record_success_counts_self, hc]
    rfl
  · intro hc
    rw [record_success_counts_self, hc]
    rfl

/-- C4: from a never-seen peer with positive threshold `N`, the call
sequence `N-1` failures, one success, `N-1` failures does not trip the
breaker: afterwards `p` has no `unhealthy_until` entry and
`is_healthy p` returns true. -/
theorem spec_C4 (t : PeerHealthTracker) (p : String) (N : Nat)
    (hN : 0 < N) (hft : t.failure_threshold = N)
    (hfc : t.failure_counts p = none) (huu : t.unhealthy_until p = none)
    (ts₁ ts₂ : List ℤ) (h1 : ts₁.length = N - 1) (h2 : ts₂.length = N - 1)
    (now : ℤ) :
    (record_failures (record_success (record_failures t p ts₁) p) p
      ts₂).unhealthy_until p = none ∧
    (is_healthy (record_failures (record_success (record_failures t p ts₁) p)
      p ts₂) p now).1 = true := by
  have hA := record_failures_no_trip p ts₁ t (by rw [hfc, hft]; simp; omega)
  have hmid_ft :
      (record_success (record_failures t p ts₁) p).failure_threshold = N := by
    rw [record_success_threshold, hA.2.2.1, hft]
  have hmid_fc :
      ((record_success (record_failures t p ts₁) p).failure_counts p).getD 0 =
        0 := record_success_counts_getD (record_failures t p ts₁) p
  have hmid_uu :
      (record_success (record_failures t p ts₁) p).unhealthy_until p =
        none := by
    rw [record_success_uu, hA.2.1, huu]
  have hB := record_failures_no_trip p ts₂
    (record_success (record_failures t p ts₁) p)
    (by rw [hmid_fc, hmid_ft]; simp; omega)
  have hfin : (record_failures (record_success (record_failures t p ts₁) p) p
      ts₂).unhealthy_until p = none := by
    rw [hB.2.1, hmid_uu]
  refine ⟨hfin, ?_⟩
  unfold is_healthy
  rw [hfin]

/-- C5: a `record_failure p` call that trips the breaker sets
`unhealthy_until p` to `now + cooldown_period` and resets the counter
to 0 in the same call, so after the breaker later recovers (an
`is_healthy` check strictly past the deadline), any fresh run of fewer
than `failure_threshold` failures leaves `p` healthy. -/
theorem spec_C5 (t : PeerHealthTracker) (p : String) (now : ℤ)
    (htrip : t.failure_threshold ≤ (t.failure_counts p).getD 0 + 1) :
    ((record_failure t p now).unhealthy_until p =
      some (now + t.cooldown_period) ∧
      (record_failure t p now).failure_counts p = some 0) ∧
    (∀ rec : ℤ, now + t.cooldown_period < rec →
      ∀ ts : List ℤ, ts.length < t.failure_threshold → ∀ chk : ℤ,
        (is_healthy (record_failures
          ((is_healthy (record_failure t p now) p rec).2) p ts) p
          chk).1 = true) := by
  have huu1 : (record_failure t p now).unhealthy_until p =
      some (now + t.cooldown_period) := by
    rw [record_failure_uu_self, if_pos htrip]
  have hfc1 : (record_failure t p now).failure_counts p = some 0 := by
    rw [record_failure_counts_self, if_pos htrip]
  refine ⟨⟨huu1, hfc1⟩, ?_⟩
  intro rec hrec ts hts chk
  have huu2 : ((is_healthy (record_failure t p now) p rec).2).unhealthy_until
      p = none :=
    is_healthy_uu_self_expired (record_failure t p now) p rec
      (now + t.cooldown_period) huu1 hrec
  have hfc2 : ((is_healthy (record_failure t p now) p rec).2).failure_counts
      p = some 0 := by
    rw [is_healthy_counts]
    exact hfc1
  have hft2 : ((is_healthy (record_failure t p now) p rec).2).failure_threshold
      = t.failure_threshold := by
    rw [is_healthy_threshold, record_failure_threshold]
  have hC := record_failures_no_trip p ts
    ((is_healthy (record_failure t p now) p rec).2)
    (by rw [hfc2, hft2]; simpa)
  have hfin : (record_failures ((is_healthy (record_failure t p now) p
      rec).2) p ts).unhealthy_until p = none := by
    rw [hC.2.1, huu2]
  exact is_healthy_fst_none _ p chk hfin

/-- C6: `get_cooldown_remaining p` returns `unhealthy_until p - now`
exactly when the entry exists and that difference is strictly
positive, returns none in every other case (no entry, or an expired
entry not yet cleared by `is_healthy`), and mutates no tracker
state. -/
theorem spec_C6 (t : PeerHealthTracker) (p : String) (now : ℤ) :
    (∀ d, t.unhealthy_until p = some d →
      (0 < d - now → get_cooldown_remaining t p now = some (d - now)) ∧
      (¬ 0 < d - now → get_cooldown_remaining t p now = none)) ∧
    (t.unhealthy_until p = none → get_cooldown_remaining t p now = none) ∧
    step t (Op.cooldown p now) = t := by
  refine ⟨?_, ?_, rfl⟩
  · intro d hd
    constructor
    · intro hpos
      unfold get_cooldown_remaining
      rw [hd]
      simp [hpos]
    · intro hneg
      unfold get_cooldown_remaining
      rw [hd]
      simp [hneg]
  · intro hd
    unfold get_cooldown_remaining
    rw [hd]

/-- C7: any sequence of operations addressed to peer `p` leaves the
failure counter and `unhealthy_until` entry of a distinct peer `q`
unchanged, so `is_healthy q` and `get_cooldown_remaining q` (at the
same instant) are unaffected. -/
theorem spec_C7 (t : PeerHealthTracker) (p q : String) (hpq : q ≠ p)
    (ops : List Op) (hops : ∀ o ∈ ops, o.peer = p) (now : ℤ) :
    (stepList t ops).failure_counts q = t.failure_counts q ∧
    (stepList t ops).unhealthy_until q = t.unhealthy_until q ∧
    (is_healthy (stepList t ops) q now).1 = (is_healthy t q now).1 ∧
    get_cooldown_remaining (stepList t ops) q now =
      get_cooldown_remaining t q now := by
  have h := stepList_frame q ops t (fun o ho => by rw [hops o ho]; exact hpq)
  exact ⟨h.1, h.2, is_healthy_fst_eq_of_uu_eq _ _ q now h.2,
    get_cooldown_remaining_eq_of_uu_eq _ _ q now h.2⟩

/-- C9: `record_failure p` counts failures even while `p`'s breaker is
open: below the threshold the counter advances and the existing
deadline is kept; at the threshold the call overwrites
`unhealthy_until p` with `now + cooldown_period`, resets the counter,
and `p` stays unhealthy at every instant after the old deadline up to
the new one. -/
theorem spec_C9 (t : PeerHealthTracker) (p : String) (now d : ℤ)
    (hopen : t.unhealthy_until p = some d) :
    ((t.failure_counts p).getD 0 + 1 < t.failure_threshold →
      (record_failure t p now).failure_counts p =
        some ((t.failure_counts p).getD 0 + 1) ∧
      (record_failure t p now).unhealthy_until p = some d) ∧
    (t.failure_threshold ≤ (t.failure_counts p).getD 0 + 1 →
      (record_failure t p now).unhealthy_until p =
        some (now + t.cooldown_period) ∧
      (record_failure t p now).failure_counts p = some 0 ∧
      (∀ chk : ℤ, d < chk → chk ≤ now + t.cooldown_period →
        (is_healthy (record_failure t p now) p chk).1 = false)) := by
  constructor
  · intro hlow
    have hno : ¬ t.failure_threshold ≤ (t.failure_counts p).getD 0 + 1 := by
      omega
    constructor
    · rw [record_failure_counts_self, if_neg hno]
    · rw [record_failure_uu_self, if_neg hno, hopen]
  · intro htrip
    have huu1 : (record_failure t p now).unhealthy_until p =
        some (now + t.cooldown_period) := by
      rw [record_failure_uu_self, if_pos htrip]
    refine ⟨huu1, by rw [record_failure_counts_self, if_pos htrip], ?_⟩
    intro chk hchk1 hchk2
    have hlate : ¬ (now + t.cooldown_period < chk) := by omega
    unfold is_healthy
    rw [huu1]
    simp [hlate]

/-- C10: with a threshold of at least 1, in every tracker state
reachable from a fresh tracker by any call sequence, every stored
failure counter is strictly below the threshold (that is, between 0
and `failure_threshold - 1` inclusive). -/
theorem spec_C10 (ft : Nat) (cp : ℤ) (hft : 1 ≤ ft) (ops : List Op)
    (q : String) (c : Nat)
    (hc : (stepList (init ft cp) ops).failure_counts q = some c) :
    c < ft ∧ c ≤ ft - 1 := by
  have h := stepList_counts_bound ops (init ft cp) hft
    (fun q' c' hc' => by exact absurd hc' (by simp [init])) q c hc
  have : c < ft := h
  omega

theorem spec_C1_witness :
    (is_healthy (record_failures (init 2 60) "p1" [0]) "p1" 1).1 = true ∧
    (is_healthy (record_failures (init 2 60) "p1" ([0] ++ [1])) "p1" 5).1 =
      false :=
  ⟨(spec_C1 (init 2 60) "p1" 2 (by decide) rfl rfl rfl).1 [0] 1 (by decide),
    (spec_C1 (init 2 60) "p1" 2 (by decide) rfl rfl rfl).2 [0] 1 5 rfl
      (by decide) (by decide)⟩

theorem spec_C2_witness :
    ((is_healthy (record_failure (init 1 10) "p" 0) "p" 11).1 = true ∧
      (is_healthy (record_failure (init 1 10) "p" 0) "p"
        11).2.unhealthy_until "p" = none) ∧
    (is_healthy (record_failure (init 1 10) "p" 0) "p" 5).1 = false ∧
    (is_healthy (init 1 10) "q" 0).1 = true ∧
    (record_failure (record_failure (init 1 10) "p" 0) "p"
      3).unhealthy_until "p" ≠ none :=
  ⟨(spec_C2 (record_failure (init 1 10) "p" 0) "p" 11).1 10 (by decide)
      (by decide),
    ((spec_C2 (record_failure (init 1 10) "p" 0) "p" 5).2.1 10 (by decide)
      (by decide)).1,
    ((spec_C2 (init 1 10) "q" 0).2.2.1 (by decide)).1,
    ((spec_C2 (record_failure (init 1 10) "p" 0) "p" 3).2.2.2 "p" "p" 3
      (by decide)).1⟩

theorem spec_C3_witness :
    (record_success (record_failure (init 3 60) "a" 0) "a").unhealthy_until =
      (record_failure (init 3 60) "a" 0).unhealthy_until ∧
    (record_success (record_failure (init 3 60) "a" 0) "a").failure_counts
      "b" = (record_failure (init 3 60) "a" 0).failure_counts "b" ∧
    (record_success (record_failure (init 3 60) "a" 0) "a").failure_counts
      "a" = some 0 ∧
    (record_success (init 3 60) "a").failure_counts "a" = none :=
  ⟨(spec_C3 (record_failure (init 3 60) "a" 0) "a").1,
    (spec_C3 (record_failure (init 3 60) "a" 0) "a").2.1 "b" (by decide),
    (spec_C3 (record_failure (init 3 60) "a" 0) "a").2.2.1 1 (by decide),
    (spec_C3 (init 3 60) "a").2.2.2.1 rfl⟩

theorem spec_C4_witness :
    (record_failures (record_success (record_failures (init 2 60) "p" [0])
      "p") "p" [2]).unhealthy_until "p" = none ∧
    (is_healthy (record_failures (record_success (record_failures (init 2 60)
      "p" [0]) "p") "p" [2]) "p" 3).1 = true :=
  spec_C4 (init 2 60) "p" 2 (by decide) rfl rfl rfl [0] [2] rfl rfl 3

theorem spec_C5_witness :
    ((record_failure (record_failure (init 2 7) "p" 0) "p" 1).unhealthy_until
      "p" = some 8 ∧
      (record_failure (record_failure (init 2 7) "p" 0) "p" 1).failure_counts
        "p" = some 0) ∧
    (is_healthy (record_failures ((is_healthy (record_failure (record_failure
      (init 2 7) "p" 0) "p" 1) "p" 10).2) "p" [20]) "p" 21).1 = true :=
  ⟨(spec_C5 (record_failure (init 2 7) "p" 0) "p" 1 (by decide)).1,
    (spec_C5 (record_failure (init 2 7) "p" 0) "p" 1 (by decide)).2 10
      (by decide) [20] (by decide) 21⟩

theorem spec_C6_witness :
    get_cooldown_remaining (record_failure (init 1 10) "p" 0) "p" 4 =
      some 6 ∧
    get_cooldown_remaining (record_failure (init 1 10) "p" 0) "p" 12 =
      none ∧
    get_cooldown_remaining (init 1 10) "q" 0 = none ∧
    step (record_failure (init 1 10) "p" 0) (Op.cooldown "p" 12) =
      record_failure (init 1 10) "p" 0 :=
  ⟨((spec_C6 (record_failure (init 1 10) "p" 0) "p" 4).1 10 (by decide)).1
      (by decide),
    ((spec_C6 (record_failure (init 1 10) "p" 0) "p" 12).1 10 (by decide)).2
      (by decide),
    (spec_C6 (init 1 10) "q" 0).2.1 rfl,
    (spec_C6 (record_failure (init 1 10) "p" 0) "p" 12).2.2⟩

theorem spec_C7_witness :
    (stepList (init 2 60) [Op.fail "a" 0, Op.fail "a" 1, Op.ok "a",
      Op.health "a" 2, Op.cooldown "a" 2]).failure_counts "b" =
      (init 2 60).failure_counts "b" ∧
    (stepList (init 2 60) [Op.fail "a" 0, Op.fail "a" 1, Op.ok "a",
      Op.health "a" 2, Op.cooldown "a" 2]).unhealthy_until "b" =
      (init 2 60).unhealthy_until "b" ∧
    (is_healthy (stepList (init 2 60) [Op.fail "a" 0, Op.fail "a" 1,
      Op.ok "a", Op.health "a" 2, Op.cooldown "a" 2]) "b" 3).1 =
      (is_healthy (init 2 60) "b" 3).1 ∧
    get_cooldown_remaining (stepList (init 2 60) [Op.fail "a" 0,
      Op.fail "a" 1, Op.ok "a", Op.health "a" 2, Op.cooldown "a" 2]) "b" 3 =
      get_cooldown_remaining (init 2 60) "b" 3 :=
  spec_C7 (init 2 60) "a" "b" (by decide) [Op.fail "a" 0, Op.fail "a" 1,
    Op.ok "a", Op.health "a" 2, Op.cooldown "a" 2] (by decide) 3

theorem spec_C9_witness :
    ((record_failure (record_failure (record_failure (init 2 9) "p" 0) "p" 1)
        "p" 5).failure_counts "p" = some 1 ∧
      (record_failure (record_failure (record_failure (init 2 9) "p" 0) "p"
        1) "p" 5).unhealthy_until "p" = some 10) ∧
    (record_failure (record_failure (record_failure (record_failure
      (init 2 9) "p" 0) "p" 1) "p" 5) "p" 6).unhealthy_until "p" =
      some 15 ∧
    (is_healthy (record_failure (record_failure (record_failure
      (record_failure (init 2 9) "p" 0) "p" 1) "p" 5) "p" 6) "p" 12).1 =
      false :=
  ⟨(spec_C9 (record_failure (record_failure (init 2 9) "p" 0) "p" 1) "p" 5 10
      (by decide)).1 (by decide),
    ((spec_C9 (record_failure (record_failure (record_failure (init 2 9) "p"
      0) "p" 1) "p" 5) "p" 6 10 (by decide)).2 (by decide)).1,
    ((spec_C9 (record_failure (record_failure (record_failure (init 2 9) "p"
      0) "p" 1) "p" 5) "p" 6 10 (by decide)).2 (by decide)).2.2 12
      (by decide) (by decide)⟩

theorem spec_C10_witness :
    (stepList (init 2 60) [Op.fail "p" 0, Op.fail "p" 1,
      Op.fail "p" 2]).failure_counts "p" = some 1 ∧
    (1 < 2 ∧ 1 ≤ 2 - 1) :=
  ⟨by decide,
    spec_C10 2 60 (by decide)
      [Op.fail "p" 0, Op.fail "p" 1, Op.fail "p" 2] "p" 1 (by decide)⟩

example : (is_healthy (init 2 60) "p1" 0).1 = true := by decide
example :
    (is_healthy (record_failure (init 2 60) "p1" 0) "p1" 1).1 = true := by
  decide
example :
    (is_healthy (record_failure (record_failure (init 2 60) "p1" 0) "p1" 1)
      "p1" 5).1 = false := by decide
example :
    (is_healthy (record_failure (record_failure (init 2 60) "p1" 0) "p1" 1)
      "p1" 62).1 = true := by decide
example :
    get_cooldown_remaining
      (record_failure (record_failure (init 2 60) "p1" 0) "p1" 1) "p1" 5 =
      some 56 := by decide
